import Mathlib

/-!
Shallow embedding of the Salla OAuth2 integration flow of the Datajar
frontend:

* `startAuthorization` embeds `SallaConnectModal.handleStartAuth`
  (src/Frontend/src/components/project-setup/salla-dialog.tsx);
* `handleCallback` embeds `SallaCallback.handleCallback` of
  src/unnamed/part_012 (the callback variant with project-id resolution,
  token validation and the import call);
* `handleCallbackStrict` embeds `SallaCallback.handleCallback` of
  src/Frontend/src/components/auth/SallaCallback.tsx (the strict-CSRF
  variant without project-id resolution);
* `mountWizard` embeds the mount effect of `ProjectSetupWizard`
  (src/Frontend/src/components/project-setup/ProjectSetupWizard.tsx,
  first variant, six steps).

localStorage is modelled as a record with one `Option String` field per
key the flow touches; `none` is an absent key.  JSON records stored under
`project_data` / `project_form_data` are modelled as parsed records.
JavaScript truthiness on strings (null and the empty string are falsy),
`parseInt(s, 10)` prefix parsing and `Number(x)` whole-string conversion
are modelled explicitly below.  `Date().toISOString()` is modelled as an
opaque constant timestamp; `new Date(a) > new Date(b)` on the ISO
`yyyy-mm-dd` strings produced by the date inputs coincides with
lexicographic string order, which is how it is modelled.
-/

/-- JavaScript truthiness of a nullable string: `null` and `""` are falsy. -/
def jsTruthyOS : Option String → Bool
  | none => false
  | some s => !(s == "")

/-- A JavaScript value that can live in the callback's `projectId`
variable: an integer number, `NaN` (from a failed `parseInt`), or a raw
string coming out of a parsed JSON record. -/
inductive JsVal where
  | num (i : Int)
  | nan
  | str (s : String)
deriving DecidableEq, Repr

/-- JavaScript truthiness of a `JsVal`: `0`, `NaN` and `""` are falsy. -/
def jsValTruthy : JsVal → Bool
  | .num i => !(i == 0)
  | .nan => false
  | .str s => !(s == "")

/-- Truthiness of a possibly-null `JsVal` (`null` is falsy). -/
def optValTruthy : Option JsVal → Bool
  | none => false
  | some v => jsValTruthy v

/-- Character is ASCII whitespace as skipped by `parseInt`. -/
def jsIsWs (c : Char) : Bool :=
  c == ' ' || c == '\t' || c == '\n' || c == '\r'

/-- Longest leading run of decimal digits. -/
def takeDigits (cs : List Char) : List Char :=
  cs.takeWhile (fun c => c.isDigit)

/-- Decimal value of a digit list. -/
def digitsToNat (cs : List Char) : Nat :=
  cs.foldl (fun a c => a * 10 + (c.toNat - 48)) 0

/-- Model of JavaScript `parseInt(s, 10)`: skip leading whitespace, read an
optional sign and then the longest digit prefix; `none` models `NaN`
(no digits found).  A value such as `"4abc"` parses to `4`. -/
def jsParseInt (s : String) : Option Int :=
  match s.toList.dropWhile jsIsWs with
  | [] => none
  | c :: rest =>
    if c == '-' then
      let ds := takeDigits rest
      if ds.isEmpty then none else some (-(Int.ofNat (digitsToNat ds)))
    else if c == '+' then
      let ds := takeDigits rest
      if ds.isEmpty then none else some (Int.ofNat (digitsToNat ds))
    else
      let ds := takeDigits (c :: rest)
      if ds.isEmpty then none else some (Int.ofNat (digitsToNat ds))

/-- A non-NaN JavaScript number as produced by `Number(...)` on the
strings the flow can store: a finite decimal `num / 10 ^ frac` (not
necessarily an integer — `Number("7.5")` is `7.5`) or an infinity.  The
representation keeps the exact sign in `num`, which is all the code's
`<= 0` re-validation inspects. -/
inductive JsNum where
  | fin (num : Int) (frac : Nat)
  | inf
  | negInf
deriving DecidableEq, Repr

/-- The code's `numericProjectId <= 0` test on a non-NaN number: the sign
of the numerator decides it for finite values. -/
def jsNumLeZero : JsNum → Bool
  | .fin m _ => decide (m ≤ 0)
  | .inf => false
  | .negInf => true

/-- Integer-part / fraction-part / exponent of a decimal numeric literal
combined into a `JsNum`: `mant` are the mantissa digits, `fracLen` how
many of them sit after the decimal point, `e` the signed exponent. -/
def mkFinJsNum (neg : Bool) (mant : Nat) (fracLen : Nat) (e : Int) : JsNum :=
  let sgn : Int := if neg then -1 else 1
  if (fracLen : Int) ≤ e then
    .fin (sgn * Int.ofNat (mant * 10 ^ (e - (fracLen : Int)).toNat)) 0
  else
    .fin (sgn * Int.ofNat mant) (((fracLen : Int) - e).toNat)

/-- Mantissa of a decimal literal: digits, optionally a decimal point
followed by digits, at least one digit overall; returns the combined
digit value and the number of fraction digits. -/
def parseDecMant (mant : List Char) : Option (Nat × Nat) :=
  let ip := mant.takeWhile (fun c => c.isDigit)
  let rest := mant.dropWhile (fun c => c.isDigit)
  match rest with
  | [] => if ip.isEmpty then none else some (digitsToNat ip, 0)
  | '.' :: fp =>
    if fp.all (fun c => c.isDigit) && !(ip.isEmpty && fp.isEmpty) then
      some (digitsToNat (ip ++ fp), fp.length)
    else none
  | _ => none

/-- Signed exponent after the `e`/`E` of a decimal literal. -/
def parseExp : List Char → Option Int
  | [] => none
  | '-' :: ds =>
    if !ds.isEmpty && ds.all (fun c => c.isDigit) then
      some (-(Int.ofNat (digitsToNat ds)))
    else none
  | '+' :: ds =>
    if !ds.isEmpty && ds.all (fun c => c.isDigit) then
      some (Int.ofNat (digitsToNat ds))
    else none
  | ds =>
    if ds.all (fun c => c.isDigit) then some (Int.ofNat (digitsToNat ds))
    else none

/-- Digit validity for the hex/octal/binary prefixes of `Number(...)`. -/
def isRadixDigit (r : Nat) (c : Char) : Bool :=
  if r = 16 then
    c.isDigit || (decide ('a' ≤ c) && decide (c ≤ 'f')) ||
      (decide ('A' ≤ c) && decide (c ≤ 'F'))
  else if r = 8 then decide ('0' ≤ c) && decide (c ≤ '7')
  else c == '0' || c == '1'

/-- Value of one hex/octal/binary digit. -/
def radixDigitVal (c : Char) : Nat :=
  if c.isDigit then c.toNat - 48
  else if decide ('a' ≤ c) && decide (c ≤ 'f') then c.toNat - 87
  else c.toNat - 55

/-- Integer literal in radix `r` (the digits after a `0x`/`0o`/`0b`
prefix, where `Number(...)` admits no sign). -/
def parseRadix (r : Nat) (ds : List Char) : Option JsNum :=
  if !ds.isEmpty && ds.all (isRadixDigit r) then
    some (.fin (Int.ofNat (ds.foldl (fun a c => a * r + radixDigitVal c) 0)) 0)
  else none

/-- Model of JavaScript `Number(s)` on strings following the
StringNumericLiteral grammar: the whitespace-trimmed empty string is
`0`; a `0x`/`0X`/`0o`/`0O`/`0b`/`0B` prefix starts an unsigned radix
literal; otherwise an optional sign precedes `Infinity` or a decimal
literal with optional fraction and exponent (so `Number("7.5") = 7.5`
and `Number("0x10") = 16`); anything else is `NaN` (`none`). -/
def jsNumber (s : String) : Option JsNum :=
  let cs := ((s.toList.dropWhile jsIsWs).reverse.dropWhile jsIsWs).reverse
  match cs with
  | [] => some (.fin 0 0)
  | '0' :: 'x' :: ds => parseRadix 16 ds
  | '0' :: 'X' :: ds => parseRadix 16 ds
  | '0' :: 'o' :: ds => parseRadix 8 ds
  | '0' :: 'O' :: ds => parseRadix 8 ds
  | '0' :: 'b' :: ds => parseRadix 2 ds
  | '0' :: 'B' :: ds => parseRadix 2 ds
  | _ =>
    let neg : Bool :=
      match cs with
      | '-' :: _ => true
      | _ => false
    let body : List Char :=
      match cs with
      | '-' :: rest => rest
      | '+' :: rest => rest
      | _ => cs
    if body == [ 'I', 'n', 'f', 'i', 'n', 'i', 't', 'y' ] then
      some (if neg then JsNum.negInf else JsNum.inf)
    else
      let mantPart := body.takeWhile (fun c => !(c == 'e' || c == 'E'))
      let expRest := body.dropWhile (fun c => !(c == 'e' || c == 'E'))
      match parseDecMant mantPart with
      | none => none
      | some (m, k) =>
        match expRest with
        | [] => some (mkFinJsNum neg m k 0)
        | _ :: es =>
          match parseExp es with
          | none => none
          | some e => some (mkFinJsNum neg m k e)

/-- Model of JavaScript `String(n)` on a non-NaN number: infinities
print as `Infinity`, a finite `num / 10 ^ frac` prints sign, integer
part and the fraction digits with trailing zeros stripped (exponent
display of extreme magnitudes is not modelled; the value feeds only a
debug key). -/
def jsNumToString : JsNum → String
  | .inf => "Infinity"
  | .negInf => "-Infinity"
  | .fin m k =>
    if k = 0 then toString m
    else
      let sgn := if m < 0 then "-" else ""
      let ds := (toString m.natAbs).toList
      let ipart := if ds.length ≤ k then [ '0' ] else ds.take (ds.length - k)
      let fracRaw :=
        if ds.length ≤ k then List.replicate (k - ds.length) '0' ++ ds
        else ds.drop (ds.length - k)
      let frac := (fracRaw.reverse.dropWhile (fun c => c == '0')).reverse
      if frac.isEmpty then sgn ++ String.mk ipart
      else sgn ++ String.mk ipart ++ "." ++ String.mk frac

/-- Model of JavaScript `Number(x)` on a `JsVal`; `none` models `NaN`. -/
def jsNumberOfVal : JsVal → Option JsNum
  | .num i => some (.fin i 0)
  | .nan => none
  | .str s => jsNumber s

/-- Result of `parseInt` as stored into the `projectId` variable:
a failed parse leaves `NaN` in the variable. -/
def jsParseIntVal (s : String) : JsVal :=
  match jsParseInt s with
  | some i => .num i
  | none => .nan

/-- Parsed content of the `project_data` JSON record.  Only the `id`
field is ever read back by the code (the callback's option 2); the other
fields written by `handleStartAuth` are never consulted and are omitted. -/
structure ProjectData where
  id : Option JsVal := none
deriving DecidableEq, Repr

/-- Parsed content of the `project_form_data` JSON record, as written by
`handleStartAuth` (fields of `projectData` spread plus `id`) and by the
wizard's `handleNext` (which also writes `projectId`). -/
structure FormData where
  projectName : Option String := none
  persona : Option String := none
  context : Option String := none
  industry : Option String := none
  id : Option JsVal := none
  projectId : Option JsVal := none
  lastStep : Option Int := none
deriving DecidableEq, Repr

/-- The localStorage keys touched by the flow, one typed field per key;
`none` models an absent key. -/
structure Store where
  salla_state : Option String := none
  salla_from_date : Option String := none
  salla_to_date : Option String := none
  salla_resource : Option String := none
  current_project_id : Option String := none
  project_data : Option ProjectData := none
  projectId : Option String := none
  project_form_data : Option FormData := none
  project_setup_step : Option String := none
  salla_access_token : Option String := none
  salla_refresh_token : Option String := none
  salla_store_id : Option String := none
  salla_connected : Option String := none
  salla_connected_at : Option String := none
  last_used_project_id : Option String := none
  salla_data_imported : Option String := none
  salla_orders_count : Option String := none
  salla_import_date : Option String := none
deriving DecidableEq, Repr

/-- A store with no keys set. -/
def emptyStore : Store := {}

/-- The callback's project-id resolution before the hardcoded fallback:
option 1 is `parseInt(current_project_id)` when that key is truthy,
option 2 the `id` field of the parsed `project_data` record when truthy
(keeping the previous value otherwise), option 3
`parseInt(projectId)` when that key is truthy.  Each later option runs
only while the accumulated value is still falsy
(src/unnamed/part_012 lines 102-135). -/
def resolveProjectIdPre (s : Store) : Option JsVal :=
  let p1 : Option JsVal :=
    if jsTruthyOS s.current_project_id then
      some (jsParseIntVal (s.current_project_id.getD ""))
    else none
  let p2 : Option JsVal :=
    if optValTruthy p1 then p1
    else
      match s.project_data with
      | some pd =>
        match pd.id with
        | some v => if jsValTruthy v then some v else p1
        | none => p1
      | none => p1
  if optValTruthy p2 then p2
  else
    if jsTruthyOS s.projectId then some (jsParseIntVal (s.projectId.getD ""))
    else p2

/-- Full project-id resolution including the unconditional hardcoded
fallback `projectId = 1` applied whenever the resolved value is falsy
(src/unnamed/part_012 lines 137-142; the code comment reads
"Use a fallback project ID for testing - remove in production" but no
environment check guards it). -/
def resolveProjectId (s : Store) : JsVal :=
  match resolveProjectIdPre s with
  | some v => if jsValTruthy v then v else .num 1
  | none => .num 1

/-- Whether the hardcoded fallback project id was substituted. -/
def usedFallbackProjectId (s : Store) : Bool :=
  !(optValTruthy (resolveProjectIdPre s))

/-- Reasons the callback handler can terminate in an error, one per
thrown / set error message of the source. -/
inductive CbErr where
  | missingCode
  | missingState
  | csrfMismatch
  | missingDateRange
  | missingProject
  | tokenExchangeFailed
  | invalidTokenResponse
  | invalidProjectId
  | importFailed
deriving DecidableEq, Repr

/-- Final UI status of the callback page. -/
inductive CbStatus where
  | success
  | error
deriving DecidableEq, Repr

/-- Parsed body of the token-exchange response; a missing JSON field is
`none` and an empty string is falsy, exactly as the source's truthiness
checks treat them. -/
structure TokenData where
  access_token : Option String := none
  refresh_token : Option String := none
  merchant : Option String := none
deriving DecidableEq, Repr

/-- Outcome of the token-exchange call (collaborator input). -/
inductive ExchangeOutcome where
  | fail
  | ok (d : TokenData)
deriving DecidableEq, Repr

/-- Outcome of the import (orders/df) call; `order_count` is the
`order_count` field of its response. -/
inductive ImportOutcome where
  | fail
  | ok (order_count : Option Nat)
deriving DecidableEq, Repr

/-- Observable result of one callback invocation: final status, error
reason, final store, how many times each collaborator was invoked,
whether the state anomaly was logged, and the navigation target. -/
structure CallbackResult where
  status : CbStatus
  err : Option CbErr
  store : Store
  exchangeCalls : Nat
  importCalls : Nat
  anomaly : Bool
  navTarget : Option String
deriving DecidableEq, Repr

/-- Error result before any collaborator call. -/
def cbErrorEarly (e : CbErr) (s : Store) (a : Bool) : CallbackResult :=
  ⟨.error, some e, s, 0, 0, a, none⟩

/-- Opaque model of `new Date().toISOString()`. -/
def nowISO : String := "1970-01-01T00:00:00.000Z"

/-- State validation of src/unnamed/part_012 lines 151-165: with a falsy
`state` or falsy stored state, continue with a logged anomaly when the
URL carried a state but none was stored, and fail with the missing-state
error when the URL carried none; with both truthy, fail on mismatch.
Returns the anomaly flag on success. -/
def checkState (st stored : Option String) : Except CbErr Bool :=
  if jsTruthyOS st = false ∨ jsTruthyOS stored = false then
    if jsTruthyOS st = true ∧ jsTruthyOS stored = false then .ok true
    else if jsTruthyOS st = false then .error .missingState
    else .ok false
  else if st ≠ stored then .error .csrfMismatch
  else .ok false

/-- Exchange-and-import tail of `SallaCallback.handleCallback` of
src/unnamed/part_012 (lines 182-290), entered after validation with the
stored csrf state already deleted (`s1`): exchange the code, validate
the response's access token, persist the token set, re-validate the
numeric project id, import, and record the import results.  `anomaly`,
`pid` and `formPresent` are the values the validation part computed. -/
def exchangeAndImport (anomaly : Bool) (pid : JsVal) (formPresent : Bool)
    (s1 : Store) (exch : ExchangeOutcome) (imp : ImportOutcome) : CallbackResult :=
  match exch with
  | .fail => ⟨.error, some .tokenExchangeFailed, s1, 1, 0, anomaly, none⟩
  | .ok d =>
    if jsTruthyOS d.access_token = false then
      ⟨.error, some .invalidTokenResponse, s1, 1, 0, anomaly, none⟩
    else
      let s2 := { s1 with salla_access_token := d.access_token }
      let s3 := { s2 with salla_refresh_token :=
                    if jsTruthyOS d.refresh_token then d.refresh_token
                    else s2.salla_refresh_token }
      let s4 := { s3 with salla_store_id :=
                    if jsTruthyOS d.merchant then d.merchant
                    else s3.salla_store_id }
      let s5 := { s4 with salla_connected := some "true",
                          salla_connected_at := some nowISO }
      match jsNumberOfVal pid with
      | none => ⟨.error, some .invalidProjectId, s5, 1, 0, anomaly, none⟩
      | some n =>
        if jsNumLeZero n then
          ⟨.error, some .invalidProjectId, s5, 1, 0, anomaly, none⟩
        else
          let s6 := { s5 with last_used_project_id := some (jsNumToString n) }
          match imp with
          | .fail => ⟨.error, some .importFailed, s6, 1, 1, anomaly, none⟩
          | .ok cnt =>
            let s7 := { s6 with
              salla_from_date := none,
              salla_to_date := none,
              salla_resource := none,
              salla_data_imported := some "true",
              salla_orders_count := some (toString (cnt.getD 0)),
              salla_import_date := some nowISO }
            let s8 := { s7 with project_setup_step :=
                          if formPresent then s7.project_setup_step
                          else some "4" }
            ⟨.success, none, s8, 1, 1, anomaly, some "/setup-project?step=4"⟩

/-- Embedding of `SallaCallback.handleCallback` of src/unnamed/part_012:
read the URL parameters and the stored keys, resolve the project id,
require a code, validate the state, require the date range, require a
truthy project id (unreachable after the fallback), delete the stored
csrf state, and run the exchange-and-import tail.  The two collaborator
outcomes are inputs; the call counters record how often each
collaborator was invoked. -/
def handleCallback (code st : Option String) (s : Store)
    (exch : ExchangeOutcome) (imp : ImportOutcome) : CallbackResult :=
  let stored := s.salla_state
  let fromDate := s.salla_from_date
  let toDate := s.salla_to_date
  let formPresent := s.project_form_data.isSome
  let pid := resolveProjectId s
  if jsTruthyOS code = false then cbErrorEarly .missingCode s false
  else
    match checkState st stored with
    | .error e => cbErrorEarly e s false
    | .ok anomaly =>
      if jsTruthyOS fromDate = false ∨ jsTruthyOS toDate = false then
        cbErrorEarly .missingDateRange s anomaly
      else if jsValTruthy pid = false then
        cbErrorEarly .missingProject s anomaly
      else
        exchangeAndImport anomaly pid formPresent { s with salla_state := none }
          exch imp

/-- Model of `localStorage.setItem(k, v)` where `v` may be the JavaScript
`undefined` (a missing response field): `setItem` stringifies it to the
literal string `"undefined"`. -/
def jsSetItemVal (o : Option String) : String :=
  match o with
  | some v => v
  | none => "undefined"

/-- Embedding of `SallaCallback.handleCallback` of
src/Frontend/src/components/auth/SallaCallback.tsx (the strict-CSRF
variant): require a code, fail with the CSRF error whenever the state is
falsy or differs from the stored one, delete the stored state, exchange
the code, store the tokens unconditionally, and set the one-shot step
marker when no form data is present. -/
def handleCallbackStrict (code st : Option String) (s : Store)
    (exch : ExchangeOutcome) : CallbackResult :=
  let stored := s.salla_state
  let formPresent := s.project_form_data.isSome
  if jsTruthyOS code = false then cbErrorEarly .missingCode s false
  else if jsTruthyOS st = false ∨ st ≠ stored then
    cbErrorEarly .csrfMismatch s false
  else
    let s1 := { s with salla_state := none }
    match exch with
    | .fail => ⟨.error, some .tokenExchangeFailed, s1, 1, 0, false, none⟩
    | .ok d =>
      let s2 := { s1 with
        salla_access_token := some (jsSetItemVal d.access_token),
        salla_refresh_token := some (jsSetItemVal d.refresh_token),
        salla_store_id := some (jsSetItemVal d.merchant),
        salla_connected := some "true",
        salla_connected_at := some nowISO }
      let s3 := { s2 with project_setup_step :=
                    if formPresent then s2.project_setup_step
                    else some "4" }
      ⟨.success, none, s3, 1, 0, false, some "/setup-project?step=4"⟩

/-- The `projectData` props handed to `SallaConnectModal` by
`SallaDialog` (which always passes `lastStep = 4`). -/
structure DraftProps where
  projectName : String
  persona : String
  context : String
  industry : String
  lastStep : Int
deriving DecidableEq, Repr

/-- Outcome of the Project Service call `createProjectInStore`
(collaborator input); on success it yields the new project id as the
string the store action returns. -/
inductive CreateProjectOutcome where
  | fail
  | ok (id : String)
deriving DecidableEq, Repr

/-- Outcome of one `handleStartAuth` invocation. -/
inductive StartAuthOutcome where
  | validationError (msg : String)
  | upstreamError
  | navigated (authState : String)
deriving DecidableEq, Repr

/-- Observable result of one `handleStartAuth` invocation: the outcome,
the final store, and how often the Project Service was invoked. -/
structure StartAuthResult where
  outcome : StartAuthOutcome
  store : Store
  createCalls : Nat
deriving DecidableEq, Repr

/-- Strict lexicographic order on character lists (the order underlying
`String.lt`), written structurally so it evaluates by kernel reduction. -/
def strLtB : List Char → List Char → Bool
  | [], [] => false
  | [], _ :: _ => true
  | _ :: _, [] => false
  | a :: as, b :: bs =>
    if a < b then true else if b < a then false else strLtB as bs

/-- Model of `new Date(a) > new Date(b)` on the `yyyy-mm-dd` strings the
date inputs produce: lexicographic string order coincides with the
chronological order of the parsed dates there. -/
def dateAfter (a b : String) : Bool :=
  strLtB b.toList a.toList

/-- Embedding of `SallaConnectModal.handleStartAuth`
(src/Frontend/src/components/project-setup/salla-dialog.tsx lines
79-183): validate the date range, call the Project Service, require a
truthy project id, persist the id under the three identifier keys and
the draft records, persist the pending-authorization keys, and navigate
to the authorization URL carrying `state = csrf`.  The fresh
`crypto.randomUUID()` value and the Project Service outcome are inputs. -/
def startAuthorization (pd : DraftProps) (resource fromDate toDate csrf : String)
    (svc : CreateProjectOutcome) (s : Store) : StartAuthResult :=
  if fromDate = "" ∨ toDate = "" then
    ⟨.validationError "Please select a date range", s, 0⟩
  else if dateAfter fromDate toDate then
    ⟨.validationError "From date must be before To date", s, 0⟩
  else
    match svc with
    | .fail => ⟨.upstreamError, s, 1⟩
    | .ok id =>
      if id = "" then ⟨.upstreamError, s, 1⟩
      else
        let s1 := { s with
          current_project_id := some id,
          projectId := some id,
          project_data := some { id := some (.str id) },
          project_form_data := some {
            projectName := some pd.projectName,
            persona := some pd.persona,
            context := some pd.context,
            industry := some pd.industry,
            id := some (.str id),
            lastStep := some pd.lastStep },
          salla_state := some csrf,
          salla_from_date := some fromDate,
          salla_to_date := some toDate,
          salla_resource := some resource }
        ⟨.navigated csrf, s1, 1⟩

/-- The wizard's step titles (first `ProjectSetupWizard` variant); the
mount effect bounds the restored step by this list's length. -/
def wizardSteps : List String :=
  ["Name Your Project", "Select Persona", "Add Context",
   "Choose Industry", "Import Your Data", "Processing Data"]

/-- Restoring one form field: keep the initial empty string unless the
saved field is truthy. -/
def restoreField (o : Option String) : String :=
  if jsTruthyOS o then o.getD "" else ""

/-- Wizard state after the mount effect: the four form fields, the
restored project id, the current step index, and the store (the one-shot
step marker may have been consumed). -/
structure WizardResult where
  projectName : String
  persona : String
  context : String
  industry : String
  pid : Option JsVal
  step : Nat
  store : Store
deriving DecidableEq, Repr

/-- Embedding of the `ProjectSetupWizard` mount effect
(src/Frontend/src/components/project-setup/ProjectSetupWizard.tsx lines
57-98, first variant): rehydrate the form fields and project id from the
`project_form_data` record; then, when the `step` query parameter is
truthy, move to `parseInt` of it when that is an in-range index;
otherwise consult the one-shot `project_setup_step` marker, moving to it
and deleting it only when it parses to an in-range index. -/
def mountWizard (stepParam : Option String) (s : Store) : WizardResult :=
  let name := match s.project_form_data with
    | some fd => restoreField fd.projectName
    | none => ""
  let persona := match s.project_form_data with
    | some fd => restoreField fd.persona
    | none => ""
  let context := match s.project_form_data with
    | some fd => restoreField fd.context
    | none => ""
  let industry := match s.project_form_data with
    | some fd => restoreField fd.industry
    | none => ""
  let pid : Option JsVal := match s.project_form_data with
    | some fd =>
      let x := if optValTruthy fd.projectId then fd.projectId else fd.id
      if optValTruthy x then x else none
    | none => none
  if jsTruthyOS stepParam then
    let step := match jsParseInt (stepParam.getD "") with
      | some k => if 0 ≤ k ∧ k < wizardSteps.length then k.toNat else 0
      | none => 0
    ⟨name, persona, context, industry, pid, step, s⟩
  else
    if jsTruthyOS s.project_setup_step then
      match jsParseInt (s.project_setup_step.getD "") with
      | some k =>
        if 0 ≤ k ∧ k < wizardSteps.length then
          ⟨name, persona, context, industry, pid, k.toNat,
           { s with project_setup_step := none }⟩
        else ⟨name, persona, context, industry, pid, 0, s⟩
      | none => ⟨name, persona, context, industry, pid, 0, s⟩
    else ⟨name, persona, context, industry, pid, 0, s⟩

theorem handleCallback_no_code (code st : Option String) (s : Store)
    (exch : ExchangeOutcome) (imp : ImportOutcome)
    (hc : jsTruthyOS code = false) :
    handleCallback code st s exch imp = cbErrorEarly .missingCode s false := by
  unfold handleCallback
  simp [hc]

theorem handleCallback_checkState_error (code st : Option String) (s : Store)
    (exch : ExchangeOutcome) (imp : ImportOutcome) (e : CbErr)
    (hc : jsTruthyOS code = true)
    (hcs : checkState st s.salla_state = .error e) :
    handleCallback code st s exch imp = cbErrorEarly e s false := by
  unfold handleCallback
  simp [hc, hcs]

theorem handleCallback_missing_dates (code st : Option String) (s : Store)
    (exch : ExchangeOutcome) (imp : ImportOutcome) (a : Bool)
    (hc : jsTruthyOS code = true)
    (hcs : checkState st s.salla_state = .ok a)
    (hd : jsTruthyOS s.salla_from_date = false ∨ jsTruthyOS s.salla_to_date = false) :
    handleCallback code st s exch imp = cbErrorEarly .missingDateRange s a := by
  unfold handleCallback
  simp [hc, hcs, hd]

theorem handleCallback_missing_project (code st : Option String) (s : Store)
    (exch : ExchangeOutcome) (imp : ImportOutcome) (a : Bool)
    (hc : jsTruthyOS code = true)
    (hcs : checkState st s.salla_state = .ok a)
    (hd1 : jsTruthyOS s.salla_from_date = true)
    (hd2 : jsTruthyOS s.salla_to_date = true)
    (hp : jsValTruthy (resolveProjectId s) = false) :
    handleCallback code st s exch imp = cbErrorEarly .missingProject s a := by
  unfold handleCallback
  simp [hc, hcs, hd1, hd2, hp]

theorem handleCallback_eq_tail (code st : Option String) (s : Store)
    (exch : ExchangeOutcome) (imp : ImportOutcome) (a : Bool)
    (hc : jsTruthyOS code = true)
    (hcs : checkState st s.salla_state = .ok a)
    (hd1 : jsTruthyOS s.salla_from_date = true)
    (hd2 : jsTruthyOS s.salla_to_date = true)
    (hp : jsValTruthy (resolveProjectId s) = true) :
    handleCallback code st s exch imp =
      exchangeAndImport a (resolveProjectId s) s.project_form_data.isSome
        { s with salla_state := none } exch imp := by
  unfold handleCallback
  simp [hc, hcs, hd1, hd2, hp]

theorem exchangeAndImport_exchangeCalls (a : Bool) (pid : JsVal) (fp : Bool)
    (s1 : Store) (exch : ExchangeOutcome) (imp : ImportOutcome) :
    (exchangeAndImport a pid fp s1 exch imp).exchangeCalls = 1 := by
  unfold exchangeAndImport
  repeat' split
  all_goals rfl

theorem exchangeAndImport_salla_state (a : Bool) (pid : JsVal) (fp : Bool)
    (s1 : Store) (exch : ExchangeOutcome) (imp : ImportOutcome) :
    (exchangeAndImport a pid fp s1 exch imp).store.salla_state = s1.salla_state := by
  unfold exchangeAndImport
  repeat' split
  all_goals rfl

theorem exchangeAndImport_anomaly (a : Bool) (pid : JsVal) (fp : Bool)
    (s1 : Store) (exch : ExchangeOutcome) (imp : ImportOutcome) :
    (exchangeAndImport a pid fp s1 exch imp).anomaly = a := by
  unfold exchangeAndImport
  repeat' split
  all_goals rfl

theorem exchangeAndImport_err_cases (a : Bool) (pid : JsVal) (fp : Bool)
    (s1 : Store) (exch : ExchangeOutcome) (imp : ImportOutcome) :
    (exchangeAndImport a pid fp s1 exch imp).err = none ∨
    (exchangeAndImport a pid fp s1 exch imp).err = some .tokenExchangeFailed ∨
    (exchangeAndImport a pid fp s1 exch imp).err = some .invalidTokenResponse ∨
    (exchangeAndImport a pid fp s1 exch imp).err = some .invalidProjectId ∨
    (exchangeAndImport a pid fp s1 exch imp).err = some .importFailed := by
  unfold exchangeAndImport
  repeat' split
  all_goals simp

theorem exchangeAndImport_importCalls_pos (a : Bool) (pid : JsVal) (fp : Bool)
    (s1 : Store) (exch : ExchangeOutcome) (imp : ImportOutcome)
    (h : (exchangeAndImport a pid fp s1 exch imp).importCalls = 1) :
    ∃ n : JsNum, jsNumberOfVal pid = some n ∧ jsNumLeZero n = false := by
  unfold exchangeAndImport at h
  revert h
  repeat' split
  all_goals intro h
  all_goals first
    | exact ⟨_, by assumption, by simp_all⟩
    | simp at h

theorem exchangeAndImport_invalid_pid_no_import (a : Bool) (pid : JsVal) (fp : Bool)
    (s1 : Store) (exch : ExchangeOutcome) (imp : ImportOutcome)
    (h : (exchangeAndImport a pid fp s1 exch imp).err = some .invalidProjectId) :
    (exchangeAndImport a pid fp s1 exch imp).importCalls = 0 := by
  revert h
  unfold exchangeAndImport
  repeat' split
  all_goals intro h
  all_goals first
    | rfl
    | simp at h

theorem exchangeAndImport_fail_result (a : Bool) (pid : JsVal) (fp : Bool)
    (s1 : Store) (imp : ImportOutcome) :
    (exchangeAndImport a pid fp s1 .fail imp).err = some .tokenExchangeFailed ∧
    (exchangeAndImport a pid fp s1 .fail imp).store = s1 := by
  constructor <;> rfl

theorem exchangeAndImport_bad_token (a : Bool) (pid : JsVal) (fp : Bool)
    (s1 : Store) (d : TokenData) (imp : ImportOutcome)
    (htok : jsTruthyOS d.access_token = false) :
    (exchangeAndImport a pid fp s1 (.ok d) imp).err = some .invalidTokenResponse ∧
    (exchangeAndImport a pid fp s1 (.ok d) imp).store = s1 := by
  unfold exchangeAndImport
  simp [htok]

theorem exchangeAndImport_good_token (a : Bool) (pid : JsVal) (fp : Bool)
    (s1 : Store) (d : TokenData) (imp : ImportOutcome)
    (htok : jsTruthyOS d.access_token = true) :
    (exchangeAndImport a pid fp s1 (.ok d) imp).store.salla_access_token =
      d.access_token := by
  unfold exchangeAndImport
  simp [htok]
  repeat' split
  all_goals rfl

theorem jsTruthyOS_true_iff (o : Option String) :
    jsTruthyOS o = true ↔ ∃ t, o = some t ∧ t ≠ "" := by
  cases o <;> simp [jsTruthyOS]

/-- C1: for every callback invocation where the URL contains a code, the
URL contains a state value, and a csrfToken is stored, if the received
state differs from the stored csrfToken then the callback handler (in
both source variants) terminates in the csrf-mismatch error and the
Token Exchange Service is never invoked (its call count is 0). -/
theorem c1_csrf_mismatch_blocks_token_exchange
    (code st tok : String) (s : Store) (exch : ExchangeOutcome) (imp : ImportOutcome)
    (hc : code ≠ "") (hst : st ≠ "") (htok : tok ≠ "")
    (hstore : s.salla_state = some tok) (hne : st ≠ tok) :
    (handleCallback (some code) (some st) s exch imp).status = .error ∧
    (handleCallback (some code) (some st) s exch imp).err = some .csrfMismatch ∧
    (handleCallback (some code) (some st) s exch imp).exchangeCalls = 0 ∧
    (handleCallbackStrict (some code) (some st) s exch).status = .error ∧
    (handleCallbackStrict (some code) (some st) s exch).exchangeCalls = 0 := by
  unfold handleCallback handleCallbackStrict checkState cbErrorEarly jsTruthyOS
  simp [hstore, hc, hst, htok, hne]

/-- Witness for C1 at a concrete mismatching callback. -/
theorem c1_witness :
    ("abc" : String) ≠ "" ∧ ("XYZ" : String) ≠ "" ∧ ("OTHER" : String) ≠ "" ∧
    ("XYZ" : String) ≠ "OTHER" ∧
    ((handleCallback (some "abc") (some "XYZ")
        { emptyStore with salla_state := some "OTHER" }
        (.ok { access_token := some "tok1" }) (.ok (some 57))).status = .error ∧
      (handleCallback (some "abc") (some "XYZ")
        { emptyStore with salla_state := some "OTHER" }
        (.ok { access_token := some "tok1" }) (.ok (some 57))).err = some .csrfMismatch ∧
      (handleCallback (some "abc") (some "XYZ")
        { emptyStore with salla_state := some "OTHER" }
        (.ok { access_token := some "tok1" }) (.ok (some 57))).exchangeCalls = 0 ∧
      (handleCallbackStrict (some "abc") (some "XYZ")
        { emptyStore with salla_state := some "OTHER" }
        (.ok { access_token := some "tok1" })).status = .error ∧
      (handleCallbackStrict (some "abc") (some "XYZ")
        { emptyStore with salla_state := some "OTHER" }
        (.ok { access_token := some "tok1" })).exchangeCalls = 0) :=
  ⟨by decide, by decide, by decide, by decide,
    c1_csrf_mismatch_blocks_token_exchange "abc" "XYZ" "OTHER"
      { emptyStore with salla_state := some "OTHER" }
      (.ok { access_token := some "tok1" }) (.ok (some 57))
      (by decide) (by decide) (by decide) rfl (by decide)⟩

/-- C2 counterexample: a callback that reads a stored csrfToken and fails
with the csrf-mismatch error leaves the token in the store — the claimed
delete-on-read (whether valid or not) does not happen on this path. -/
theorem c2_counterexample_token_survives_mismatch :
    (handleCallback (some "abc") (some "XYZ")
      { emptyStore with salla_state := some "OTHER",
                        salla_from_date := some "2024-01-01",
                        salla_to_date := some "2024-01-31" }
      (.ok { access_token := some "tok1" }) (.ok (some 57))).err = some .csrfMismatch ∧
    (handleCallback (some "abc") (some "XYZ")
      { emptyStore with salla_state := some "OTHER",
                        salla_from_date := some "2024-01-01",
                        salla_to_date := some "2024-01-31" }
      (.ok { access_token := some "tok1" }) (.ok (some 57))).store.salla_state =
      some "OTHER" := by
  decide

/-- C2 amended: the stored csrfToken is deleted exactly on the path that
reaches the token exchange (it is removed just before the exchange
call); on a csrf-mismatch error the whole store — the token included —
is left untouched. -/
theorem c2_amended_token_deleted_only_before_exchange
    (code st : Option String) (s : Store) (exch : ExchangeOutcome) (imp : ImportOutcome) :
    ((handleCallback code st s exch imp).exchangeCalls = 1 →
      (handleCallback code st s exch imp).store.salla_state = none) ∧
    ((handleCallback code st s exch imp).err = some .csrfMismatch →
      (handleCallback code st s exch imp).store = s) := by
  constructor
  · intro h
    cases hc : jsTruthyOS code with
    | false => rw [handleCallback_no_code code st s exch imp hc] at h; simp [cbErrorEarly] at h
    | true =>
      cases hcs : checkState st s.salla_state with
      | error e => rw [handleCallback_checkState_error code st s exch imp e hc hcs] at h
                   simp [cbErrorEarly] at h
      | ok a =>
        cases hd1 : jsTruthyOS s.salla_from_date with
        | false =>
          rw [handleCallback_missing_dates code st s exch imp a hc hcs (Or.inl hd1)] at h
          simp [cbErrorEarly] at h
        | true =>
          cases hd2 : jsTruthyOS s.salla_to_date with
          | false =>
            rw [handleCallback_missing_dates code st s exch imp a hc hcs (Or.inr hd2)] at h
            simp [cbErrorEarly] at h
          | true =>
            cases hp : jsValTruthy (resolveProjectId s) with
            | false =>
              rw [handleCallback_missing_project code st s exch imp a hc hcs hd1 hd2 hp] at h
              simp [cbErrorEarly] at h
            | true =>
              rw [handleCallback_eq_tail code st s exch imp a hc hcs hd1 hd2 hp,
                  exchangeAndImport_salla_state]
  · intro h
    cases hc : jsTruthyOS code with
    | false => rw [handleCallback_no_code code st s exch imp hc]; rfl
    | true =>
      cases hcs : checkState st s.salla_state with
      | error e => rw [handleCallback_checkState_error code st s exch imp e hc hcs]; rfl
      | ok a =>
        cases hd1 : jsTruthyOS s.salla_from_date with
        | false =>
          rw [handleCallback_missing_dates code st s exch imp a hc hcs (Or.inl hd1)]; rfl
        | true =>
          cases hd2 : jsTruthyOS s.salla_to_date with
          | false =>
            rw [handleCallback_missing_dates code st s exch imp a hc hcs (Or.inr hd2)]; rfl
          | true =>
            cases hp : jsValTruthy (resolveProjectId s) with
            | false =>
              rw [handleCallback_missing_project code st s exch imp a hc hcs hd1 hd2 hp]; rfl
            | true =>
              exfalso
              rw [handleCallback_eq_tail code st s exch imp a hc hcs hd1 hd2 hp] at h
              rcases exchangeAndImport_err_cases a (resolveProjectId s)
                  s.project_form_data.isSome { s with salla_state := none } exch imp with
                h1 | h1 | h1 | h1 | h1 <;> rw [h1] at h <;> simp at h

/-- Witness for C2's amended theorem: on a fully valid callback the
exchange is invoked and the token has been deleted, and the implication
is applied at that concrete input. -/
theorem c2_amended_witness :
    (handleCallback (some "abc") (some "XYZ")
      { emptyStore with salla_state := some "XYZ",
                        salla_from_date := some "2024-01-01",
                        salla_to_date := some "2024-01-31" }
      (.ok { access_token := some "tok1" }) (.ok (some 57))).exchangeCalls = 1 ∧
    (handleCallback (some "abc") (some "XYZ")
      { emptyStore with salla_state := some "XYZ",
                        salla_from_date := some "2024-01-01",
                        salla_to_date := some "2024-01-31" }
      (.ok { access_token := some "tok1" }) (.ok (some 57))).store.salla_state = none :=
  ⟨by decide,
    (c2_amended_token_deleted_only_before_exchange (some "abc") (some "XYZ")
      { emptyStore with salla_state := some "XYZ",
                        salla_from_date := some "2024-01-01",
                        salla_to_date := some "2024-01-31" }
      (.ok { access_token := some "tok1" }) (.ok (some 57))).1 (by decide)⟩

theorem checkState_ok_anomaly (st stored : Option String)
    (hst : jsTruthyOS st = true) (hstored : jsTruthyOS stored = false) :
    checkState st stored = .ok true := by
  unfold checkState
  simp [hst, hstored]

/-- C8: for every callback invocation where the URL contains both a code
and a state value but no csrfToken is found in the Session Store, the
callback handler proceeds past validation recording the logged anomaly
rather than terminating in a state-validation error. -/
theorem c8_missing_stored_token_proceeds_with_anomaly
    (code st : String) (s : Store) (exch : ExchangeOutcome) (imp : ImportOutcome)
    (hc : code ≠ "") (hst : st ≠ "")
    (hstored : s.salla_state = none ∨ s.salla_state = some "") :
    (handleCallback (some code) (some st) s exch imp).anomaly = true ∧
    (handleCallback (some code) (some st) s exch imp).err ≠ some .missingState ∧
    (handleCallback (some code) (some st) s exch imp).err ≠ some .csrfMismatch := by
  have hc2 : jsTruthyOS (some code) = true := by simp [jsTruthyOS, hc]
  have hst2 : jsTruthyOS (some st) = true := by simp [jsTruthyOS, hst]
  have hstored2 : jsTruthyOS s.salla_state = false := by
    rcases hstored with h | h <;> simp [jsTruthyOS, h]
  have hcs := checkState_ok_anomaly (some st) s.salla_state hst2 hstored2
  cases hd1 : jsTruthyOS s.salla_from_date with
  | false =>
    rw [handleCallback_missing_dates (some code) (some st) s exch imp true hc2 hcs
      (Or.inl hd1)]
    simp [cbErrorEarly]
  | true =>
    cases hd2 : jsTruthyOS s.salla_to_date with
    | false =>
      rw [handleCallback_missing_dates (some code) (some st) s exch imp true hc2 hcs
        (Or.inr hd2)]
      simp [cbErrorEarly]
    | true =>
      cases hp : jsValTruthy (resolveProjectId s) with
      | false =>
        rw [handleCallback_missing_project (some code) (some st) s exch imp true hc2 hcs
          hd1 hd2 hp]
        simp [cbErrorEarly]
      | true =>
        rw [handleCallback_eq_tail (some code) (some st) s exch imp true hc2 hcs hd1 hd2 hp]
        refine ⟨exchangeAndImport_anomaly _ _ _ _ _ _, ?_, ?_⟩ <;>
          rcases exchangeAndImport_err_cases true (resolveProjectId s)
              s.project_form_data.isSome { s with salla_state := none } exch imp with
            h1 | h1 | h1 | h1 | h1 <;> rw [h1] <;> simp

/-- Witness for C8 at a concrete callback with a state but no stored
token. -/
theorem c8_witness :
    ("abc" : String) ≠ "" ∧ ("XYZ" : String) ≠ "" ∧
    ((handleCallback (some "abc") (some "XYZ")
        { emptyStore with salla_from_date := some "2024-01-01",
                          salla_to_date := some "2024-01-31" }
        (.ok { access_token := some "tok1" }) (.ok (some 57))).anomaly = true ∧
      (handleCallback (some "abc") (some "XYZ")
        { emptyStore with salla_from_date := some "2024-01-01",
                          salla_to_date := some "2024-01-31" }
        (.ok { access_token := some "tok1" }) (.ok (some 57))).err ≠ some .missingState ∧
      (handleCallback (some "abc") (some "XYZ")
        { emptyStore with salla_from_date := some "2024-01-01",
                          salla_to_date := some "2024-01-31" }
        (.ok { access_token := some "tok1" }) (.ok (some 57))).err ≠ some .csrfMismatch) :=
  ⟨by decide, by decide,
    c8_missing_stored_token_proceeds_with_anomaly "abc" "XYZ"
      { emptyStore with salla_from_date := some "2024-01-01",
                        salla_to_date := some "2024-01-31" }
      (.ok { access_token := some "tok1" }) (.ok (some 57))
      (by decide) (by decide) (Or.inl rfl)⟩

/-- C3 (code behavior at the failing input): with none of the three
identifier keys holding a value, the hardcoded fallback id 1 is
substituted unconditionally — there is no environment check in the code —
and the handler, far from failing with the missing-project error,
proceeds to invoke both the Token Exchange and the Import Service. -/
theorem c3_fallback_substituted_unconditionally :
    ({ emptyStore with salla_state := some "XYZ",
                       salla_from_date := some "2024-01-01",
                       salla_to_date := some "2024-01-31" } : Store).current_project_id
        = none ∧
    ({ emptyStore with salla_state := some "XYZ",
                       salla_from_date := some "2024-01-01",
                       salla_to_date := some "2024-01-31" } : Store).project_data = none ∧
    ({ emptyStore with salla_state := some "XYZ",
                       salla_from_date := some "2024-01-01",
                       salla_to_date := some "2024-01-31" } : Store).projectId = none ∧
    usedFallbackProjectId
      { emptyStore with salla_state := some "XYZ",
                        salla_from_date := some "2024-01-01",
                        salla_to_date := some "2024-01-31" } = true ∧
    resolveProjectId
      { emptyStore with salla_state := some "XYZ",
                        salla_from_date := some "2024-01-01",
                        salla_to_date := some "2024-01-31" } = .num 1 ∧
    (handleCallback (some "abc") (some "XYZ")
      { emptyStore with salla_state := some "XYZ",
                        salla_from_date := some "2024-01-01",
                        salla_to_date := some "2024-01-31" }
      (.ok { access_token := some "tok1" }) (.ok (some 57))).err ≠ some .missingProject ∧
    (handleCallback (some "abc") (some "XYZ")
      { emptyStore with salla_state := some "XYZ",
                        salla_from_date := some "2024-01-01",
                        salla_to_date := some "2024-01-31" }
      (.ok { access_token := some "tok1" }) (.ok (some 57))).exchangeCalls = 1 ∧
    (handleCallback (some "abc") (some "XYZ")
      { emptyStore with salla_state := some "XYZ",
                        salla_from_date := some "2024-01-01",
                        salla_to_date := some "2024-01-31" }
      (.ok { access_token := some "tok1" }) (.ok (some 57))).importCalls = 1 ∧
    (handleCallback (some "abc") (some "XYZ")
      { emptyStore with salla_state := some "XYZ",
                        salla_from_date := some "2024-01-01",
                        salla_to_date := some "2024-01-31" }
      (.ok { access_token := some "tok1" }) (.ok (some 57))).status = .success := by
  decide

/-- C4 counterexample: with the canonical key holding `"-7"` and an
otherwise valid callback, the Token Exchange Service is invoked (call
count 1) although the resolved project identifier is not a positive
integer — `Number("-7") = -7` fails the `<= 0` re-validation, which runs
only after the exchange. -/
theorem c4_counterexample_exchange_without_positive_id :
    (handleCallback (some "abc") (some "XYZ")
      { emptyStore with salla_state := some "XYZ",
                        salla_from_date := some "2024-01-01",
                        salla_to_date := some "2024-01-31",
                        current_project_id := some "-7" }
      (.ok { access_token := some "tok1" }) (.ok (some 57))).exchangeCalls = 1 ∧
    jsNumberOfVal (resolveProjectId
      { emptyStore with salla_state := some "XYZ",
                        salla_from_date := some "2024-01-01",
                        salla_to_date := some "2024-01-31",
                        current_project_id := some "-7" }) = some (.fin (-7) 0) ∧
    jsNumLeZero (.fin (-7) 0) = true := by
  decide

/-- C4 amended: the Import Service is never called unless the resolved
identifier passed the code's numeric re-validation — `Number(id)` is not
NaN and is strictly positive; that check admits positive non-integers
(for example `"7.5"` passes and the import runs with 7.5) — and an
invalid-project-id error always means the Import Service was not called;
the Token Exchange, by contrast, is guarded only by truthiness of the
resolved identifier and can run before that validation. -/
theorem c4_amended_import_gated_by_numeric_check
    (code st : Option String) (s : Store) (exch : ExchangeOutcome) (imp : ImportOutcome) :
    ((handleCallback code st s exch imp).importCalls = 1 →
      ∃ n : JsNum, jsNumberOfVal (resolveProjectId s) = some n ∧
        jsNumLeZero n = false) ∧
    ((handleCallback code st s exch imp).err = some .invalidProjectId →
      (handleCallback code st s exch imp).importCalls = 0) := by
  constructor
  · intro h
    cases hc : jsTruthyOS code with
    | false => rw [handleCallback_no_code code st s exch imp hc] at h; simp [cbErrorEarly] at h
    | true =>
      cases hcs : checkState st s.salla_state with
      | error e =>
        rw [handleCallback_checkState_error code st s exch imp e hc hcs] at h
        simp [cbErrorEarly] at h
      | ok a =>
        cases hd1 : jsTruthyOS s.salla_from_date with
        | false =>
          rw [handleCallback_missing_dates code st s exch imp a hc hcs (Or.inl hd1)] at h
          simp [cbErrorEarly] at h
        | true =>
          cases hd2 : jsTruthyOS s.salla_to_date with
          | false =>
            rw [handleCallback_missing_dates code st s exch imp a hc hcs (Or.inr hd2)] at h
            simp [cbErrorEarly] at h
          | true =>
            cases hp : jsValTruthy (resolveProjectId s) with
            | false =>
              rw [handleCallback_missing_project code st s exch imp a hc hcs hd1 hd2 hp] at h
              simp [cbErrorEarly] at h
            | true =>
              rw [handleCallback_eq_tail code st s exch imp a hc hcs hd1 hd2 hp] at h
              exact exchangeAndImport_importCalls_pos a (resolveProjectId s)
                s.project_form_data.isSome { s with salla_state := none } exch imp h
  · intro h
    cases hc : jsTruthyOS code with
    | false => rw [handleCallback_no_code code st s exch imp hc]; rfl
    | true =>
      cases hcs : checkState st s.salla_state with
      | error e => rw [handleCallback_checkState_error code st s exch imp e hc hcs]; rfl
      | ok a =>
        cases hd1 : jsTruthyOS s.salla_from_date with
        | false =>
          rw [handleCallback_missing_dates code st s exch imp a hc hcs (Or.inl hd1)]; rfl
        | true =>
          cases hd2 : jsTruthyOS s.salla_to_date with
          | false =>
            rw [handleCallback_missing_dates code st s exch imp a hc hcs (Or.inr hd2)]; rfl
          | true =>
            cases hp : jsValTruthy (resolveProjectId s) with
            | false =>
              rw [handleCallback_missing_project code st s exch imp a hc hcs hd1 hd2 hp]; rfl
            | true =>
              rw [handleCallback_eq_tail code st s exch imp a hc hcs hd1 hd2 hp] at h ⊢
              exact exchangeAndImport_invalid_pid_no_import a (resolveProjectId s)
                s.project_form_data.isSome { s with salla_state := none } exch imp h

/-- Witness for C4's amended theorem: a valid callback whose
`project_data` record holds the non-integer id string `"7.5"` — which
`Number` parses to 7.5, passing the code's re-validation — does run the
import, and the theorem yields the validated number at that input. -/
theorem c4_amended_witness :
    (handleCallback (some "abc") (some "XYZ")
      { emptyStore with salla_state := some "XYZ",
                        salla_from_date := some "2024-01-01",
                        salla_to_date := some "2024-01-31",
                        project_data := some { id := some (.str "7.5") } }
      (.ok { access_token := some "tok1" }) (.ok (some 57))).importCalls = 1 ∧
    (∃ n : JsNum, jsNumberOfVal (resolveProjectId
      { emptyStore with salla_state := some "XYZ",
                        salla_from_date := some "2024-01-01",
                        salla_to_date := some "2024-01-31",
                        project_data := some { id := some (.str "7.5") } }) = some n ∧
      jsNumLeZero n = false) :=
  ⟨by decide,
    (c4_amended_import_gated_by_numeric_check (some "abc") (some "XYZ")
      { emptyStore with salla_state := some "XYZ",
                        salla_from_date := some "2024-01-01",
                        salla_to_date := some "2024-01-31",
                        project_data := some { id := some (.str "7.5") } }
      (.ok { access_token := some "tok1" }) (.ok (some 57))).1 (by decide)⟩

/-- C5: whenever the exchange was invoked and returned without a
non-empty access token, the handler ends in the invalid-token-response
error and the stored access token is unchanged; and whenever the stored
access token changes at all, the exchange returned successfully with a
non-empty access token, which is exactly the value persisted. -/
theorem c5_token_persisted_only_after_valid_exchange
    (code st : Option String) (s : Store) (d : TokenData) (imp : ImportOutcome) :
    ((handleCallback code st s (.ok d) imp).exchangeCalls = 1 →
      jsTruthyOS d.access_token = false →
      (handleCallback code st s (.ok d) imp).err = some .invalidTokenResponse ∧
      (handleCallback code st s (.ok d) imp).store.salla_access_token =
        s.salla_access_token) ∧
    (∀ exch : ExchangeOutcome,
      (handleCallback code st s exch imp).store.salla_access_token ≠
          s.salla_access_token →
      ∃ d2 t, exch = .ok d2 ∧ d2.access_token = some t ∧ t ≠ "" ∧
        (handleCallback code st s exch imp).store.salla_access_token = some t) := by
  constructor
  · intro h htok
    cases hc : jsTruthyOS code with
    | false =>
      rw [handleCallback_no_code code st s (.ok d) imp hc] at h
      simp [cbErrorEarly] at h
    | true =>
      cases hcs : checkState st s.salla_state with
      | error e =>
        rw [handleCallback_checkState_error code st s (.ok d) imp e hc hcs] at h
        simp [cbErrorEarly] at h
      | ok a =>
        cases hd1 : jsTruthyOS s.salla_from_date with
        | false =>
          rw [handleCallback_missing_dates code st s (.ok d) imp a hc hcs (Or.inl hd1)] at h
          simp [cbErrorEarly] at h
        | true =>
          cases hd2 : jsTruthyOS s.salla_to_date with
          | false =>
            rw [handleCallback_missing_dates code st s (.ok d) imp a hc hcs (Or.inr hd2)] at h
            simp [cbErrorEarly] at h
          | true =>
            cases hp : jsValTruthy (resolveProjectId s) with
            | false =>
              rw [handleCallback_missing_project code st s (.ok d) imp a hc hcs hd1 hd2 hp] at h
              simp [cbErrorEarly] at h
            | true =>
              rw [handleCallback_eq_tail code st s (.ok d) imp a hc hcs hd1 hd2 hp]
              have hb := exchangeAndImport_bad_token a (resolveProjectId s)
                s.project_form_data.isSome { s with salla_state := none } d imp htok
              exact ⟨hb.1, by rw [hb.2]⟩
  · intro exch h
    cases hc : jsTruthyOS code with
    | false => rw [handleCallback_no_code code st s exch imp hc] at h; simp [cbErrorEarly] at h
    | true =>
      cases hcs : checkState st s.salla_state with
      | error e =>
        rw [handleCallback_checkState_error code st s exch imp e hc hcs] at h
        simp [cbErrorEarly] at h
      | ok a =>
        cases hd1 : jsTruthyOS s.salla_from_date with
        | false =>
          rw [handleCallback_missing_dates code st s exch imp a hc hcs (Or.inl hd1)] at h
          simp [cbErrorEarly] at h
        | true =>
          cases hd2 : jsTruthyOS s.salla_to_date with
          | false =>
            rw [handleCallback_missing_dates code st s exch imp a hc hcs (Or.inr hd2)] at h
            simp [cbErrorEarly] at h
          | true =>
            cases hp : jsValTruthy (resolveProjectId s) with
            | false =>
              rw [handleCallback_missing_project code st s exch imp a hc hcs hd1 hd2 hp] at h
              simp [cbErrorEarly] at h
            | true =>
              rw [handleCallback_eq_tail code st s exch imp a hc hcs hd1 hd2 hp] at h ⊢
              cases exch with
              | fail =>
                rw [(exchangeAndImport_fail_result a (resolveProjectId s)
                  s.project_form_data.isSome { s with salla_state := none } imp).2] at h
                exact absurd rfl h
              | ok d2 =>
                cases htok2 : jsTruthyOS d2.access_token with
                | false =>
                  rw [(exchangeAndImport_bad_token a (resolveProjectId s)
                    s.project_form_data.isSome { s with salla_state := none } d2 imp
                    htok2).2] at h
                  exact absurd rfl h
                | true =>
                  obtain ⟨t, ht, htne⟩ := (jsTruthyOS_true_iff d2.access_token).1 htok2
                  refine ⟨d2, t, rfl, ht, htne, ?_⟩
                  rw [exchangeAndImport_good_token a (resolveProjectId s)
                    s.project_form_data.isSome { s with salla_state := none } d2 imp htok2]
                  exact ht

/-- Witness for C5: the first part applied at a callback whose exchange
returns an empty access token, the second at one whose exchange returns
`"tok1"` and does persist it. -/
theorem c5_witness :
    ((handleCallback (some "abc") (some "XYZ")
        { emptyStore with salla_state := some "XYZ",
                          salla_from_date := some "2024-01-01",
                          salla_to_date := some "2024-01-31" }
        (.ok { access_token := some "" }) (.ok (some 57))).err =
        some .invalidTokenResponse ∧
      (handleCallback (some "abc") (some "XYZ")
        { emptyStore with salla_state := some "XYZ",
                          salla_from_date := some "2024-01-01",
                          salla_to_date := some "2024-01-31" }
        (.ok { access_token := some "" }) (.ok (some 57))).store.salla_access_token =
        ({ emptyStore with salla_state := some "XYZ",
                           salla_from_date := some "2024-01-01",
                           salla_to_date := some "2024-01-31" } : Store).salla_access_token) ∧
    (∃ d2 t, (ExchangeOutcome.ok { access_token := some "tok1" }) = .ok d2 ∧
      d2.access_token = some t ∧ t ≠ "" ∧
      (handleCallback (some "abc") (some "XYZ")
        { emptyStore with salla_state := some "XYZ",
                          salla_from_date := some "2024-01-01",
                          salla_to_date := some "2024-01-31" }
        (.ok { access_token := some "tok1" }) (.ok (some 57))).store.salla_access_token =
        some t) :=
  ⟨(c5_token_persisted_only_after_valid_exchange (some "abc") (some "XYZ")
      { emptyStore with salla_state := some "XYZ",
                        salla_from_date := some "2024-01-01",
                        salla_to_date := some "2024-01-31" }
      { access_token := some "" } (.ok (some 57))).1 (by decide) (by decide),
    (c5_token_persisted_only_after_valid_exchange (some "abc") (some "XYZ")
      { emptyStore with salla_state := some "XYZ",
                        salla_from_date := some "2024-01-01",
                        salla_to_date := some "2024-01-31" }
      { access_token := some "tok1" } (.ok (some 57))).2
      (.ok { access_token := some "tok1" }) (by decide)⟩

/-- C6: when the Project Service call fails inside a validated
`handleStartAuth` invocation, an upstream error is surfaced, the store
is untouched and no navigation happens; and, for any service outcome,
navigation or any store write implies the service returned a truthy
project id. -/
theorem c6_upstream_failure_no_writes_no_navigation
    (pd : DraftProps) (resource f t c : String) (s : Store)
    (hf : f ≠ "") (ht : t ≠ "") (hd : dateAfter f t = false) :
    ((startAuthorization pd resource f t c .fail s).outcome = .upstreamError ∧
      (startAuthorization pd resource f t c .fail s).store = s ∧
      (startAuthorization pd resource f t c .fail s).createCalls = 1) ∧
    (∀ svc : CreateProjectOutcome, ∀ a : String,
      (startAuthorization pd resource f t c svc s).outcome = .navigated a →
      ∃ id, svc = .ok id ∧ id ≠ "") ∧
    (∀ svc : CreateProjectOutcome,
      (startAuthorization pd resource f t c svc s).store ≠ s →
      ∃ id, svc = .ok id ∧ id ≠ "") := by
  refine ⟨?_, ?_, ?_⟩
  · unfold startAuthorization
    simp [hf, ht, hd]
  · intro svc a h
    unfold startAuthorization at h
    split at h
    · simp at h
    · split at h
      · simp at h
      · split at h
        · simp at h
        · rename_i id
          split at h
          · simp at h
          · rename_i hid
            exact ⟨id, rfl, hid⟩
  · intro svc h
    unfold startAuthorization at h
    split at h
    · simp at h
    · split at h
      · simp at h
      · split at h
        · simp at h
        · rename_i id
          split at h
          · simp at h
          · rename_i hid
            exact ⟨id, rfl, hid⟩

/-- Witness for C6 at a concrete failing Project Service call. -/
theorem c6_witness :
    ("2024-01-01" : String) ≠ "" ∧ ("2024-01-31" : String) ≠ "" ∧
    dateAfter "2024-01-01" "2024-01-31" = false ∧
    ((startAuthorization ⟨"Q1 Report", "Analyst", "ctx", "E-commerce", 4⟩ "orders"
        "2024-01-01" "2024-01-31" "csrf1" .fail emptyStore).outcome = .upstreamError ∧
      (startAuthorization ⟨"Q1 Report", "Analyst", "ctx", "E-commerce", 4⟩ "orders"
        "2024-01-01" "2024-01-31" "csrf1" .fail emptyStore).store = emptyStore ∧
      (startAuthorization ⟨"Q1 Report", "Analyst", "ctx", "E-commerce", 4⟩ "orders"
        "2024-01-01" "2024-01-31" "csrf1" .fail emptyStore).createCalls = 1) :=
  ⟨by decide, by decide, by decide,
    (c6_upstream_failure_no_writes_no_navigation
      ⟨"Q1 Report", "Analyst", "ctx", "E-commerce", 4⟩ "orders"
      "2024-01-01" "2024-01-31" "csrf1" emptyStore
      (by decide) (by decide) (by decide)).1⟩

theorem strLtB_irrefl (l : List Char) : strLtB l l = false := by
  induction l with
  | nil => rfl
  | cons a as ih => simp [strLtB, ih]

/-- C7: an absent date or a from-date strictly after the to-date makes
`handleStartAuth` fail with a validation error and no side effects (no
Project Service call, no store write, no navigation); with both dates
present and the from-date not after the to-date — equal dates included —
validation passes and the Project Service is called. -/
theorem c7_date_validation_gates_side_effects
    (pd : DraftProps) (resource f t c : String) (svc : CreateProjectOutcome) (s : Store) :
    ((f = "" ∨ t = "" ∨ dateAfter f t = true) →
      (∃ m, (startAuthorization pd resource f t c svc s).outcome = .validationError m) ∧
      (startAuthorization pd resource f t c svc s).store = s ∧
      (startAuthorization pd resource f t c svc s).createCalls = 0 ∧
      (∀ a, (startAuthorization pd resource f t c svc s).outcome ≠ .navigated a)) ∧
    ((f ≠ "" ∧ t ≠ "" ∧ dateAfter f t = false) →
      (startAuthorization pd resource f t c svc s).createCalls = 1 ∧
      (∀ m, (startAuthorization pd resource f t c svc s).outcome ≠ .validationError m)) ∧
    (f ≠ "" →
      dateAfter f f = false ∧
      (startAuthorization pd resource f f c svc s).createCalls = 1) := by
  refine ⟨?_, ?_, ?_⟩
  · intro h
    unfold startAuthorization
    split
    · exact ⟨⟨_, rfl⟩, rfl, rfl, by simp⟩
    · rename_i h1
      have h2 : dateAfter f t = true := by
        rcases h with h | h | h
        · exact absurd (Or.inl h) h1
        · exact absurd (Or.inr h) h1
        · exact h
      rw [if_pos h2]
      exact ⟨⟨_, rfl⟩, rfl, rfl, by simp⟩
  · rintro ⟨hf, ht, hd⟩
    unfold startAuthorization
    rw [if_neg (by simp [hf, ht]), if_neg (by simp [hd])]
    repeat' split
    all_goals exact ⟨rfl, by simp⟩
  · intro hf
    have hd : dateAfter f f = false := strLtB_irrefl f.toList
    refine ⟨hd, ?_⟩
    unfold startAuthorization
    rw [if_neg (by simp [hf]), if_neg (by simp [hd])]
    repeat' split
    all_goals rfl

/-- Witness for C7: the validation failure applied with an empty
from-date, the pass applied at a valid range, the equal-dates pass at a
concrete date. -/
theorem c7_witness :
    ((∃ m, (startAuthorization ⟨"Q1 Report", "Analyst", "ctx", "E-commerce", 4⟩ "orders"
        "" "2024-01-31" "csrf1" (.ok "7") emptyStore).outcome = .validationError m) ∧
      (startAuthorization ⟨"Q1 Report", "Analyst", "ctx", "E-commerce", 4⟩ "orders"
        "" "2024-01-31" "csrf1" (.ok "7") emptyStore).store = emptyStore ∧
      (startAuthorization ⟨"Q1 Report", "Analyst", "ctx", "E-commerce", 4⟩ "orders"
        "" "2024-01-31" "csrf1" (.ok "7") emptyStore).createCalls = 0 ∧
      (∀ a, (startAuthorization ⟨"Q1 Report", "Analyst", "ctx", "E-commerce", 4⟩ "orders"
        "" "2024-01-31" "csrf1" (.ok "7") emptyStore).outcome ≠ .navigated a)) ∧
    ((startAuthorization ⟨"Q1 Report", "Analyst", "ctx", "E-commerce", 4⟩ "orders"
        "2024-01-01" "2024-01-31" "csrf1" (.ok "7") emptyStore).createCalls = 1 ∧
      (∀ m, (startAuthorization ⟨"Q1 Report", "Analyst", "ctx", "E-commerce", 4⟩ "orders"
        "2024-01-01" "2024-01-31" "csrf1" (.ok "7") emptyStore).outcome ≠
        .validationError m)) ∧
    (dateAfter "2024-01-01" "2024-01-01" = false ∧
      (startAuthorization ⟨"Q1 Report", "Analyst", "ctx", "E-commerce", 4⟩ "orders"
        "2024-01-01" "2024-01-01" "csrf1" (.ok "7") emptyStore).createCalls = 1) :=
  ⟨(c7_date_validation_gates_side_effects
      ⟨"Q1 Report", "Analyst", "ctx", "E-commerce", 4⟩ "orders"
      "" "2024-01-31" "csrf1" (.ok "7") emptyStore).1 (Or.inl rfl),
    (c7_date_validation_gates_side_effects
      ⟨"Q1 Report", "Analyst", "ctx", "E-commerce", 4⟩ "orders"
      "2024-01-01" "2024-01-31" "csrf1" (.ok "7") emptyStore).2.1
      ⟨by decide, by decide, by decide⟩,
    (c7_date_validation_gates_side_effects
      ⟨"Q1 Report", "Analyst", "ctx", "E-commerce", 4⟩ "orders"
      "2024-01-01" "2024-01-01" "csrf1" (.ok "7") emptyStore).2.2 (by decide)⟩

/-- The store produced by a successful `handleStartAuth` run that
persists the draft named "Q1 Report" with persona "Analyst" and
last step 4. -/
def c9RoundTripStore : Store :=
  (startAuthorization ⟨"Q1 Report", "Analyst", "ctx", "E-commerce", 4⟩ "orders"
    "2024-01-01" "2024-01-31" "csrf1" (.ok "7") emptyStore).store

/-- C9 counterexample: after the flow initiator persists the draft
(name "Q1 Report", persona "Analyst", lastStep 4), mounting the wizard
with no step query parameter restores the name and the persona but opens
the wizard at step 0, not step 4 — the draft's own step field is never
read back and no one-shot step marker was written. -/
theorem c9_counterexample_draft_alone_opens_step_zero :
    (c9RoundTripStore.project_form_data =
      some { projectName := some "Q1 Report", persona := some "Analyst",
             context := some "ctx", industry := some "E-commerce",
             id := some (.str "7"), projectId := none, lastStep := some 4 }) ∧
    (mountWizard none c9RoundTripStore).projectName = "Q1 Report" ∧
    (mountWizard none c9RoundTripStore).persona = "Analyst" ∧
    (mountWizard none c9RoundTripStore).step = 0 ∧
    ¬((mountWizard none c9RoundTripStore).step = 4) := by
  decide

/-- C9 amended: the round trip restores name and persona, and opens the
wizard at step 4 provided the one-shot step marker key
`project_setup_step` holds `"4"` alongside the draft; the marker is
consumed.  (With only the draft persisted the wizard opens at step 0,
as its `lastStep` field is never consulted.) -/
theorem c9_amended_roundtrip_needs_marker
    (s : Store) (fd : FormData)
    (hfd : s.project_form_data = some fd)
    (hname : fd.projectName = some "Q1 Report")
    (hpersona : fd.persona = some "Analyst")
    (hmarker : s.project_setup_step = some "4") :
    (mountWizard none s).projectName = "Q1 Report" ∧
    (mountWizard none s).persona = "Analyst" ∧
    (mountWizard none s).step = 4 ∧
    (mountWizard none s).store.project_setup_step = none := by
  unfold mountWizard
  simp only [hfd, hmarker]
  simp [restoreField, jsTruthyOS, hname, hpersona, jsParseInt, jsIsWs, takeDigits,
    digitsToNat, wizardSteps]

/-- Witness for C9's amended theorem at a concrete store holding the
draft and the marker. -/
theorem c9_amended_witness :
    (mountWizard none
      { emptyStore with
        project_form_data := some { projectName := some "Q1 Report",
                                    persona := some "Analyst" },
        project_setup_step := some "4" }).projectName = "Q1 Report" ∧
    (mountWizard none
      { emptyStore with
        project_form_data := some { projectName := some "Q1 Report",
                                    persona := some "Analyst" },
        project_setup_step := some "4" }).persona = "Analyst" ∧
    (mountWizard none
      { emptyStore with
        project_form_data := some { projectName := some "Q1 Report",
                                    persona := some "Analyst" },
        project_setup_step := some "4" }).step = 4 ∧
    (mountWizard none
      { emptyStore with
        project_form_data := some { projectName := some "Q1 Report",
                                    persona := some "Analyst" },
        project_setup_step := some "4" }).store.project_setup_step = none :=
  c9_amended_roundtrip_needs_marker
    { emptyStore with
      project_form_data := some { projectName := some "Q1 Report",
                                  persona := some "Analyst" },
      project_setup_step := some "4" }
    { projectName := some "Q1 Report", persona := some "Analyst" }
    rfl rfl rfl rfl

/-- C10 counterexample: the step query parameter `"4abc"` is not a
numeral denoting a step index, yet the wizard moves to step 4 instead of
staying at step 0, because `parseInt` accepts the digit prefix. -/
theorem c10_counterexample_prefix_parse_moves_wizard :
    (mountWizard (some "4abc") emptyStore).step = 4 ∧
    ¬((mountWizard (some "4abc") emptyStore).step = 0) := by
  decide

/-- C10 amended: for every mount whose step query parameter holds a
non-empty value, the one-shot marker is not deleted and has no influence
on the result, and the wizard opens at `parseInt` of the value when that
prefix parse yields an in-range index (so `"4abc"` opens step 4) and at
step 0 otherwise; only an absent or empty-valued step parameter lets the
marker be consulted. -/
theorem c10_amended_nonempty_step_param
    (v : String) (s : Store) (hv : v ≠ "") :
    (mountWizard (some v) s).store.project_setup_step = s.project_setup_step ∧
    (mountWizard (some v) s).step =
      (match jsParseInt v with
       | some k => if 0 ≤ k ∧ k < wizardSteps.length then k.toNat else 0
       | none => 0) := by
  unfold mountWizard
  simp [jsTruthyOS, hv]

/-- Witness for C10's amended theorem at the parameter value "4abc" on a
store carrying a marker. -/
theorem c10_amended_witness :
    (mountWizard (some "4abc")
      { emptyStore with project_setup_step := some "2" }).store.project_setup_step =
      ({ emptyStore with project_setup_step := some "2" } : Store).project_setup_step ∧
    (mountWizard (some "4abc")
      { emptyStore with project_setup_step := some "2" }).step =
      (match jsParseInt "4abc" with
       | some k => if 0 ≤ k ∧ k < wizardSteps.length then k.toNat else 0
       | none => 0) :=
  c10_amended_nonempty_step_param "4abc"
    { emptyStore with project_setup_step := some "2" } (by decide)
